import Mathlib

/-!
A formal model of the ICC calculator (`ICC/icc.py`).

This file embeds the single computational function of the repository,
`icc(ratings, model, type, unit, r0, confidence_level)`, as a Lean function
over exact rationals, and proves or refutes the specified properties.

Modelling conventions:

* Python/numpy floating point arithmetic is modelled by exact arithmetic in `ℚ`.
  All inputs appearing in the concrete claims are small integer matrices, and all
  asserted tolerances are far larger than double rounding error.
* `np.var` is the population variance (`ddof=0`), `np.mean`/`np.var` with
  `axis=0` act per column and with `axis=1` per row; both are spelled out below.
* numpy broadcasting is modelled with `List ℚ` for 1-D float arrays: an
  array-scalar operation is a `List.map`, an array-array operation is a
  `List.zipWith`.  `MSr` is a length-`n_raters` array in the source (it is
  `np.mean(ratings, axis=0) * n_raters`), so every quantity downstream of it is
  an array as well, while `df1`, `df2` stay scalars.
* numpy division of a float array by zero produces non-finite values with a
  warning but raises nothing; the Lean total division (`x / 0 = 0`) likewise
  raises nothing.  No value-level claim below touches such a point.
* The exceptions the source can actually raise are modelled in `PyError`:
  unpacking `ratings.shape` of a 1-D array into two variables raises
  `ValueError`; `x ^ y` (bitwise XOR) on floats raises `TypeError`; reaching
  `return coeff, ...` when no branch assigned the variables raises
  `UnboundLocalError`.
* The two scipy primitives `f.cdf` and `f.ppf` are external collaborators and
  are passed in as function parameters `fcdf fppf : ℚ → ℚ → ℚ → ℚ`.
-/

namespace ICC

/-- Embeds `np.sum` over a 1-D array. -/
def npSum (xs : List ℚ) : ℚ := xs.foldr (fun a b => a + b) 0

/-- Embeds `np.mean` over a 1-D array. -/
def npMean (xs : List ℚ) : ℚ := npSum xs / (xs.length : ℚ)

/-- Embeds `np.var` over a 1-D array: the population variance (`ddof = 0`). -/
def npVar (xs : List ℚ) : ℚ :=
  npMean (xs.map (fun x => (x - npMean xs) * (x - npMean xs)))

/-- A numpy ratings array: either 1-D or 2-D (a list of rows). -/
inductive NDArray where
  | oneD (xs : List ℚ)
  | twoD (m : List (List ℚ))
deriving DecidableEq

/-- The exceptions the source can raise. -/
inductive PyError where
  /-- Unpacking `n_subjects, n_raters = ratings.shape` on a 1-D array:
  `ValueError: not enough values to unpack`. -/
  | valueError
  /-- Evaluating `x ^ y` on float operands: bitwise XOR is unsupported for floats. -/
  | typeError
  /-- Reaching `return coeff, ...` with a variable no branch assigned. -/
  | unboundLocalError
deriving DecidableEq

/-- The tuple `coeff, Fvalue, df1, df2, pvalue, lbound, ubound` returned by
`icc`.  The entries downstream of the array `MSr` are numpy arrays of length
`n_raters`; `df1` and `df2` are scalars. -/
structure ICCResult where
  coeff : List ℚ
  Fvalue : List ℚ
  df1 : ℚ
  df2 : ℚ
  pvalue : List ℚ
  lbound : List ℚ
  ubound : List ℚ
deriving DecidableEq

/-- Embeds `n_subjects`: the row count of the 2-D ratings array. -/
def nSubjects (m : List (List ℚ)) : ℕ := m.length

/-- Embeds `n_raters`: the column count of the (rectangular) 2-D ratings array. -/
def nRaters (m : List (List ℚ)) : ℕ := (m.headD []).length

/-- Column `j` of the ratings array. -/
def col (m : List (List ℚ)) (j : ℕ) : List ℚ := m.map (fun row => row.getD j 0)

/-- The columns of the ratings array. -/
def cols (m : List (List ℚ)) : List (List ℚ) := (List.range (nRaters m)).map (col m)

/-- Embeds `SStotal = np.var(ratings) * (n_subjects * n_raters - 1)`. -/
def SStotal (m : List (List ℚ)) : ℚ :=
  npVar m.flatten * ((nSubjects m : ℚ) * (nRaters m : ℚ) - 1)

/-- Embeds `MSr = np.mean(ratings, axis=0) * n_raters`: the per-column means scaled
by `n_raters` — a length-`n_raters` array, not a scalar. -/
def MSr (m : List (List ℚ)) : List ℚ :=
  (cols m).map (fun c => npMean c * (nRaters m : ℚ))

/-- Embeds `MSw = np.sum(np.var(ratings, axis=0) / n_subjects)`. -/
def MSw (m : List (List ℚ)) : ℚ :=
  npSum ((cols m).map (fun c => npVar c / (nSubjects m : ℚ)))

/-- Embeds `MSc = np.var(np.mean(ratings, axis=1)) * n_subjects`. -/
def MSc (m : List (List ℚ)) : ℚ :=
  npVar (m.map npMean) * (nSubjects m : ℚ)

/-- Embeds `MSe = (SStotal - MSr * (n_subjects - 1) - MSc * (n_raters - 1)) /
((n_subjects - 1) * (n_raters - 1))`, elementwise over the array `MSr`. -/
def MSe (m : List (List ℚ)) : List ℚ :=
  (MSr m).map (fun t =>
    (SStotal m - t * ((nSubjects m : ℚ) - 1) - MSc m * ((nRaters m : ℚ) - 1)) /
      (((nSubjects m : ℚ) - 1) * ((nRaters m : ℚ) - 1)))

/-- Python `x ^ y` on float operands: `^` is bitwise XOR, unsupported between
floats, so it raises `TypeError` and never produces a value (hence the free
result type). -/
def pyFloatBitXor (xs : List ℚ) (y : ℚ) : Except PyError α :=
  Except.error PyError.typeError

section Branches

set_option linter.unusedVariables false

/-- The `unit == "single"`, `model == "oneway"` branch (source lines 80–94). -/
def onewaySingle (m : List (List ℚ)) (r0 confidence_level : ℚ)
    (fcdf fppf : ℚ → ℚ → ℚ → ℚ) : ICCResult :=
  let N : ℚ := nSubjects m
  let K : ℚ := nRaters m
  let alpha := 1 - confidence_level
  let msr := MSr m
  let msw := MSw m
  let coeff := msr.map (fun t => (t - msw) / (t + (K - 1) * msw))
  let Fvalue := msr.map (fun t => t / msw * ((1 - r0) / (1 + (K - 1) * r0)))
  let df1 := N - 1
  let df2 := N * (K - 1)
  let pvalue := Fvalue.map (fun x => 1 - fcdf x df1 df2)
  let FL := msr.map (fun t => (t / msw) / fppf (1 - alpha / 2) (N - 1) (N * (K - 1)))
  let FU := msr.map (fun t => (t / msw) * fppf (1 - alpha / 2) (N * (K - 1)) (N - 1))
  let lbound := FL.map (fun t => (t - 1) / (t + (K - 1)))
  let ubound := FU.map (fun t => (t - 1) / (t + (K - 1)))
  ⟨coeff, Fvalue, df1, df2, pvalue, lbound, ubound⟩

/-- The `unit == "single"`, `model == "twoway"`, `type == "consistency"` branch
(source lines 97–112). -/
def twowayConsistencySingle (m : List (List ℚ)) (r0 confidence_level : ℚ)
    (fcdf fppf : ℚ → ℚ → ℚ → ℚ) : ICCResult :=
  let N : ℚ := nSubjects m
  let K : ℚ := nRaters m
  let alpha := 1 - confidence_level
  let msr := MSr m
  let mse := MSe m
  let coeff := List.zipWith (fun t e => (t - e) / (t + (K - 1) * e)) msr mse
  let Fvalue := List.zipWith (fun t e => t / e * ((1 - r0) / (1 + (K - 1) * r0))) msr mse
  let df1 := N - 1
  let df2 := (N - 1) * (K - 1)
  let pvalue := Fvalue.map (fun x => 1 - fcdf x df1 df2)
  let FL := List.zipWith
    (fun t e => (t / e) / fppf (1 - alpha / 2) (N - 1) ((N - 1) * (K - 1))) msr mse
  let FU := List.zipWith
    (fun t e => (t / e) * fppf (1 - alpha / 2) ((N - 1) * (K - 1)) (N - 1)) msr mse
  let lbound := FL.map (fun t => (t - 1) / (t + (K - 1)))
  let ubound := FU.map (fun t => (t - 1) / (t + (K - 1)))
  ⟨coeff, Fvalue, df1, df2, pvalue, lbound, ubound⟩

/-- The `unit == "single"`, `model == "twoway"`, `type == "agreement"` branch
(source lines 114–138).  The branch computes `coeff`, `a`, `b` and `Fvalue`,
reassigns `a`, `b` from `coeff`, and then evaluates
`v = (a * MSc + b * MSe) ^ 2 / ((a * MSc) ^ 2 / (n_raters - 1) + (b * MSe) ^ 2
/ ((n_subjects - 1) * (n_raters - 1)))`, whose `^` (bitwise XOR) on float
operands raises `TypeError`; `pvalue`, `FL`, `FU`, `lbound`, `ubound` are never
computed and the call returns nothing. -/
def twowayAgreementSingle (m : List (List ℚ)) (r0 confidence_level : ℚ)
    (fcdf fppf : ℚ → ℚ → ℚ → ℚ) : Except PyError ICCResult :=
  let N : ℚ := nSubjects m
  let K : ℚ := nRaters m
  let msr := MSr m
  let msc := MSc m
  let mse := MSe m
  let coeff := List.zipWith
    (fun t e => (t - e) / (t + (K - 1) * e + (K / N) * (msc - e))) msr mse
  let a := (K * r0) / (N * (1 - r0))
  let b := 1 + (K * r0 * (N - 1)) / (N * (1 - r0))
  let Fvalue := List.zipWith (fun t e => t / (a * msc + b * e)) msr mse
  let a2 := coeff.map (fun c => (K * c) / (N * (1 - c)))
  let b2 := coeff.map (fun c => 1 + (K * c * (N - 1)) / (N * (1 - c)))
  pyFloatBitXor (List.zipWith (fun ab e => ab.1 * msc + ab.2 * e) (a2.zip b2) mse) 2

/-- The `unit == "average"`, `model == "oneway"` branch (source lines 141–155). -/
def onewayAverage (m : List (List ℚ)) (r0 confidence_level : ℚ)
    (fcdf fppf : ℚ → ℚ → ℚ → ℚ) : ICCResult :=
  let N : ℚ := nSubjects m
  let K : ℚ := nRaters m
  let alpha := 1 - confidence_level
  let msr := MSr m
  let msw := MSw m
  let coeff := msr.map (fun t => (t - msw) / t)
  let Fvalue := msr.map (fun t => t / msw * (1 - r0))
  let df1 := N - 1
  let df2 := N * (K - 1)
  let pvalue := Fvalue.map (fun x => 1 - fcdf x df1 df2)
  let FL := msr.map (fun t => (t / msw) / fppf (1 - alpha / 2) (N - 1) (N * (K - 1)))
  let FU := msr.map (fun t => (t / msw) * fppf (1 - alpha / 2) (N * (K - 1)) (N - 1))
  let lbound := FL.map (fun t => 1 - 1 / t)
  let ubound := FU.map (fun t => 1 - 1 / t)
  ⟨coeff, Fvalue, df1, df2, pvalue, lbound, ubound⟩

/-- The `unit == "average"`, `model == "twoway"`, `type == "consistency"` branch
(source lines 158–172). -/
def twowayConsistencyAverage (m : List (List ℚ)) (r0 confidence_level : ℚ)
    (fcdf fppf : ℚ → ℚ → ℚ → ℚ) : ICCResult :=
  let N : ℚ := nSubjects m
  let K : ℚ := nRaters m
  let alpha := 1 - confidence_level
  let msr := MSr m
  let mse := MSe m
  let coeff := List.zipWith (fun t e => (t - e) / t) msr mse
  let Fvalue := List.zipWith (fun t e => t / e * (1 - r0)) msr mse
  let df1 := N - 1
  let df2 := (N - 1) * (K - 1)
  let pvalue := Fvalue.map (fun x => 1 - fcdf x df1 df2)
  let FL := List.zipWith
    (fun t e => (t / e) / fppf (1 - alpha / 2) (N - 1) ((N - 1) * (K - 1))) msr mse
  let FU := List.zipWith
    (fun t e => (t / e) * fppf (1 - alpha / 2) ((N - 1) * (K - 1)) (N - 1)) msr mse
  let lbound := FL.map (fun t => 1 - 1 / t)
  let ubound := FU.map (fun t => 1 - 1 / t)
  ⟨coeff, Fvalue, df1, df2, pvalue, lbound, ubound⟩

/-- The `unit == "average"`, `model == "twoway"`, `type == "agreement"` branch
(source lines 174–195).  As in the single-unit agreement branch, the `v`
assignment applies bitwise `^` to floats and raises `TypeError` before
`pvalue` or the bounds are computed. -/
def twowayAgreementAverage (m : List (List ℚ)) (r0 confidence_level : ℚ)
    (fcdf fppf : ℚ → ℚ → ℚ → ℚ) : Except PyError ICCResult :=
  let N : ℚ := nSubjects m
  let K : ℚ := nRaters m
  let msr := MSr m
  let msc := MSc m
  let mse := MSe m
  let coeff := List.zipWith (fun t e => (t - e) / (t + (msc - e) / N)) msr mse
  let a := r0 / (N * (1 - r0))
  let b := 1 + (r0 * (N - 1)) / (N * (1 - r0))
  let Fvalue := List.zipWith (fun t e => t / (a * msc + b * e)) msr mse
  let a2 := coeff.map (fun c => (K * c) / (N * (1 - c)))
  let b2 := coeff.map (fun c => 1 + (K * c * (N - 1)) / (N * (1 - c)))
  pyFloatBitXor (List.zipWith (fun ab e => ab.1 * msc + ab.2 * e) (a2.zip b2) mse) 2

end Branches

/-- The embedded `icc` function.  A 1-D `ratings` array fails when
`ratings.shape` is unpacked into two variables; a 2-D array is dispatched on
`(unit, model, type)` exactly as the nested `if`/`elif` chain of the source, and a
combination no branch matches reaches `return coeff, ...` with the result
variables never assigned, raising `UnboundLocalError`. -/
def icc (ratings : NDArray) (model type unit : String)
    (r0 confidence_level : ℚ) (fcdf fppf : ℚ → ℚ → ℚ → ℚ) :
    Except PyError ICCResult :=
  match ratings with
  | .oneD _ => Except.error PyError.valueError
  | .twoD m =>
    if unit = "single" then
      if model = "oneway" then
        Except.ok (onewaySingle m r0 confidence_level fcdf fppf)
      else if model = "twoway" then
        if type = "consistency" then
          Except.ok (twowayConsistencySingle m r0 confidence_level fcdf fppf)
        else if type = "agreement" then
          twowayAgreementSingle m r0 confidence_level fcdf fppf
        else Except.error PyError.unboundLocalError
      else Except.error PyError.unboundLocalError
    else if unit = "average" then
      if model = "oneway" then
        Except.ok (onewayAverage m r0 confidence_level fcdf fppf)
      else if model = "twoway" then
        if type = "consistency" then
          Except.ok (twowayConsistencyAverage m r0 confidence_level fcdf fppf)
        else if type = "agreement" then
          twowayAgreementAverage m r0 confidence_level fcdf fppf
        else Except.error PyError.unboundLocalError
      else Except.error PyError.unboundLocalError
    else Except.error PyError.unboundLocalError

/-- A constant stand-in for the external F-distribution CDF (`f.cdf`): the
concrete evaluations below assert only outputs that do not depend on the CDF
values. -/
def cdfZero : ℚ → ℚ → ℚ → ℚ := fun _ _ _ => 0

/-- A constant stand-in CDF with value 1/2, inside the range [0, 1] of a
cumulative distribution function. -/
def cdfHalf : ℚ → ℚ → ℚ → ℚ := fun _ _ _ => 1/2

/-- A constant stand-in for the external F-distribution quantile function
(`f.ppf`); the real upper quantiles used by the source (probability 0.975) are
at least 1, and so is this stand-in. -/
def ppfOne : ℚ → ℚ → ℚ → ℚ := fun _ _ _ => 1

/-- The 6 x 4 Shrout and Fleiss (1979) ratings matrix used by the spec and by
the repository test suite. -/
def shrout : List (List ℚ) :=
  [[9, 2, 5, 8], [6, 1, 3, 2], [8, 4, 6, 8], [7, 1, 2, 6], [10, 5, 6, 9], [6, 2, 4, 7]]

/-- The Koo and Li perfect-agreement input: x = [4, 8, 12, 16, 20] stacked with
itself as two identical rater columns (`np.vstack((x, y)).T`). -/
def koo : List (List ℚ) := [[4, 4], [8, 8], [12, 12], [16, 16], [20, 20]]

/-- Written from the spec words, for comparison with the source `MSr`: the
sample variance (`ddof = 1`, the ANOVA convention) of a 1-D array. -/
def sampleVar (xs : List ℚ) : ℚ :=
  npSum (xs.map (fun x => (x - npMean xs) * (x - npMean xs))) / ((xs.length : ℚ) - 1)

/-- Written from the spec words, for comparison with the source `MSr`: the
between-subjects mean square, `n_raters` times the variance of the per-subject
row means. -/
def betweenSubjectsMS (m : List (List ℚ)) : ℚ :=
  (nRaters m : ℚ) * sampleVar (m.map npMean)

/-- The `onewaySingle` output on the matrix [[1, 2], [3, 5]] under the
stand-ins `cdfHalf` and `ppfOne`. -/
def C7res : ICCResult :=
  ⟨[19/45, 43/69], [32/13, 56/13], 1, 2, [1/2, 1/2], [19/45, 43/69], [19/45, 43/69]⟩

/-- A 2 x 2 matrix on which every source mean square is positive:
`MSr = [1, 1]`, `MSw = 81/4`, `MSc = 0`, `MSe = [239/4, 239/4]`. -/
def C8mat : List (List ℚ) := [[5, -4], [-4, 5]]

/-- The `onewaySingle` output on `C8mat` under `cdfZero` and `ppfOne`. -/
def C8res : ICCResult :=
  ⟨[-77/85, -77/85], [4/81, 4/81], 1, 2, [1, 1], [-77/85, -77/85], [-77/85, -77/85]⟩

/-! ## Helper lemmas -/

/-- Membership in a `zipWith` comes from aligned members of the two lists. -/
lemma exists_of_mem_zipWith {α β γ : Type} {f : α → β → γ} :
    ∀ {xs : List α} {ys : List β} {z : γ}, z ∈ List.zipWith f xs ys →
      ∃ x ∈ xs, ∃ y ∈ ys, z = f x y := by
  intro xs
  induction xs with
  | nil => intro ys z h; simp at h
  | cons a l ih =>
    intro ys z h
    cases ys with
    | nil => simp at h
    | cons b t =>
      rw [List.zipWith_cons_cons, List.mem_cons] at h
      rcases h with rfl | h
      · exact ⟨a, List.mem_cons_self a l, b, List.mem_cons_self b t, rfl⟩
      · obtain ⟨x, hx, y, hy, rfl⟩ := ih h
        exact ⟨x, List.mem_cons_of_mem a hx, y, List.mem_cons_of_mem b hy, rfl⟩

/-- Pointwise comparison of two maps over the same list. -/
lemma forall₂_map_map {α : Type} {f g : α → ℚ} {xs : List α}
    (h : ∀ x ∈ xs, f x ≤ g x) :
    List.Forall₂ (· ≤ ·) (xs.map f) (xs.map g) := by
  induction xs with
  | nil => simp
  | cons a l ih =>
    exact List.Forall₂.cons (h a (List.mem_cons_self a l))
      (ih fun x hx => h x (List.mem_cons_of_mem a hx))

/-- Pointwise comparison of two zipWiths over the same pair of lists. -/
lemma forall₂_zipWith_zipWith {f g : ℚ → ℚ → ℚ} :
    ∀ (xs ys : List ℚ), (∀ x ∈ xs, ∀ y ∈ ys, f x y ≤ g x y) →
      List.Forall₂ (· ≤ ·) (List.zipWith f xs ys) (List.zipWith g xs ys) := by
  intro xs
  induction xs with
  | nil => intro ys h; simp
  | cons a l ih =>
    intro ys h
    cases ys with
    | nil => simp
    | cons b t =>
      rw [List.zipWith_cons_cons, List.zipWith_cons_cons]
      exact List.Forall₂.cons (h a (List.mem_cons_self a l) b (List.mem_cons_self b t))
        (ih t fun x hx y hy =>
          h x (List.mem_cons_of_mem a hx) y (List.mem_cons_of_mem b hy))

/-- The map `t ↦ (t - 1) / (t + c)` is monotone where both denominators are
positive. -/
lemma shifted_ratio_mono {c s t : ℚ} (hs : 0 < s + c) (ht : 0 < t + c)
    (hc : 0 < c) (hst : s ≤ t) : (s - 1) / (s + c) ≤ (t - 1) / (t + c) := by
  rw [div_le_div_iff hs ht]
  nlinarith [mul_nonneg (sub_nonneg.2 hst) (by linarith : (0 : ℚ) ≤ c + 1)]

/-- The map `t ↦ 1 - 1 / t` is monotone on positives. -/
lemma one_sub_inv_mono {s t : ℚ} (hs : 0 < s) (hst : s ≤ t) :
    1 - 1 / s ≤ 1 - 1 / t := by
  have := one_div_le_one_div_of_le hs hst
  linarith

/-- With positive mean squares the single-unit coefficient formula can be
rewritten through the variance ratio `t / w`. -/
lemma single_coeff_rewrite {t w c : ℚ} (ht : 0 < t) (hw : 0 < w) (hc : 0 < c) :
    (t - w) / (t + c * w) = (t / w - 1) / (t / w + c) := by
  have hcw : 0 < c * w := mul_pos hc hw
  have hF : 0 < t / w := div_pos ht hw
  have hd1 : (0 : ℚ) < t + c * w := by linarith
  have hd2 : (0 : ℚ) < t / w + c := by linarith
  rw [div_eq_div_iff hd1.ne' hd2.ne']
  field_simp

/-- Lower confidence bound vs. coefficient, single-unit shape. -/
lemma single_lb {t w q c : ℚ} (ht : 0 < t) (hw : 0 < w) (hq : 1 ≤ q)
    (hc : 1 ≤ c) : (t / w / q - 1) / (t / w / q + c) ≤ (t - w) / (t + c * w) := by
  have hF : 0 < t / w := div_pos ht hw
  have hq0 : 0 < q := lt_of_lt_of_le one_pos hq
  have hFL : 0 < t / w / q := div_pos hF hq0
  have hc0 : 0 < c := lt_of_lt_of_le one_pos hc
  rw [single_coeff_rewrite ht hw hc0]
  exact shifted_ratio_mono (by linarith) (by linarith) hc0 (div_le_self hF.le hq)

/-- Coefficient vs. upper confidence bound, single-unit shape. -/
lemma single_ub {t w q c : ℚ} (ht : 0 < t) (hw : 0 < w) (hq : 1 ≤ q)
    (hc : 1 ≤ c) : (t - w) / (t + c * w) ≤ (t / w * q - 1) / (t / w * q + c) := by
  have hF : 0 < t / w := div_pos ht hw
  have hFU : 0 < t / w * q := mul_pos hF (lt_of_lt_of_le one_pos hq)
  have hc0 : 0 < c := lt_of_lt_of_le one_pos hc
  rw [single_coeff_rewrite ht hw hc0]
  exact shifted_ratio_mono (by linarith) (by linarith) hc0
    (le_mul_of_one_le_right hF.le hq)

/-- With positive mean squares the average-unit coefficient formula can be
rewritten through the variance ratio `t / w`. -/
lemma average_coeff_rewrite {t w : ℚ} (ht : 0 < t) :
    (t - w) / t = 1 - 1 / (t / w) := by
  rw [one_div_div, sub_div, div_self ht.ne']

/-- Lower confidence bound vs. coefficient, average-unit shape. -/
lemma average_lb {t w q : ℚ} (ht : 0 < t) (hw : 0 < w) (hq : 1 ≤ q) :
    1 - 1 / (t / w / q) ≤ (t - w) / t := by
  have hF : 0 < t / w := div_pos ht hw
  have hq0 : 0 < q := lt_of_lt_of_le one_pos hq
  rw [average_coeff_rewrite ht]
  exact one_sub_inv_mono (div_pos hF hq0) (div_le_self hF.le hq)

/-- Coefficient vs. upper confidence bound, average-unit shape. -/
lemma average_ub {t w q : ℚ} (ht : 0 < t) (hw : 0 < w) (hq : 1 ≤ q) :
    (t - w) / t ≤ 1 - 1 / (t / w * q) := by
  have hF : 0 < t / w := div_pos ht hw
  rw [average_coeff_rewrite ht]
  exact one_sub_inv_mono hF (le_mul_of_one_le_right hF.le hq)

/-- The single-unit coefficient shape lies in [-1, 1] under non-negative mean
squares and a non-zero denominator. -/
lemma ratio_in_unit_interval {t e c : ℚ} (ht : 0 ≤ t) (he : 0 ≤ e) (hc : 1 ≤ c)
    (hden : t + c * e ≠ 0) :
    -1 ≤ (t - e) / (t + c * e) ∧ (t - e) / (t + c * e) ≤ 1 := by
  have hce : 0 ≤ c * e := mul_nonneg (by linarith) he
  have hpos : 0 < t + c * e := lt_of_le_of_ne (by linarith) (Ne.symm hden)
  constructor
  · rw [le_div_iff hpos]
    nlinarith [mul_nonneg (sub_nonneg.2 hc) he]
  · rw [div_le_one hpos]
    linarith

/-- Any pvalue built as the upper tail of a [0, 1]-valued CDF lies in [0, 1]. -/
lemma pvalue_mem_bounds (fcdf : ℚ → ℚ → ℚ → ℚ)
    (hcdf : ∀ x a b, 0 ≤ fcdf x a b ∧ fcdf x a b ≤ 1) (d1 d2 : ℚ) (F : List ℚ) :
    ∀ p ∈ F.map (fun x => 1 - fcdf x d1 d2), 0 ≤ p ∧ p ≤ 1 := by
  intro p hp
  rw [List.mem_map] at hp
  obtain ⟨x, hx, rfl⟩ := hp
  obtain ⟨h0, h1⟩ := hcdf x d1 d2
  constructor <;> linarith

/-! ## Theorems about the claims -/

/-- Claim C1, counterexample: a 2-D ratings matrix with a single row — shape
(1, 2), so fewer than 2 subjects — is not rejected: `icc` returns a full result
tuple instead of raising an error. -/
theorem single_row_returns_result :
    (icc (.twoD [[1, 2]]) "oneway" "consistency" "single" 0 (95/100)
      cdfZero ppfOne).isOk = true := rfl

/-- Claim C1, amended: only a 1-D ratings input fails fast — unpacking its
shape raises `ValueError` before the variance decomposition, for every
configuration — while 2-D inputs with a single row or a single column are not
rejected: on a supported non-agreement configuration they produce a full result
tuple (whose Python values are partly non-finite). -/
theorem oneD_valueError_but_degenerate_twoD_passes :
    (∀ xs model ty u r0 cl fcdf fppf,
        icc (.oneD xs) model ty u r0 cl fcdf fppf = .error .valueError)
      ∧ (icc (.twoD [[1, 2]]) "twoway" "consistency" "single" 0 (95/100)
          cdfZero ppfOne).isOk = true
      ∧ (icc (.twoD [[1], [2]]) "oneway" "consistency" "single" 0 (95/100)
          cdfZero ppfOne).isOk = true :=
  ⟨fun _ _ _ _ _ _ _ _ => rfl, rfl, rfl⟩

/-- Claim C2, counterexample: `model = "oneway"` with `type = "consistency"`
(not one of the six supported triples, and the source default) is not rejected:
a numeric result tuple is returned. -/
theorem oneway_consistency_returns_result :
    (icc (.twoD [[1, 2], [3, 5]]) "oneway" "consistency" "single" 0 (95/100)
      cdfZero ppfOne).isOk = true := rfl

/-- Claim C2, amended: an unrecognized `unit`, an unrecognized `model` under a
recognized `unit`, or an unrecognized `type` under `model = "twoway"` all make
`icc` fail with `UnboundLocalError` at the `return` statement — not with a
dedicated `UnsupportedConfiguration` error — while `model = "oneway"` ignores
`type` entirely and returns a result for every `type` string. -/
theorem unsupported_config_unboundLocalError :
    (∀ m model ty u r0 cl fcdf fppf, u ≠ "single" → u ≠ "average" →
        icc (.twoD m) model ty u r0 cl fcdf fppf = .error .unboundLocalError)
      ∧ (∀ m model ty u r0 cl fcdf fppf, (u = "single" ∨ u = "average") →
          model ≠ "oneway" → model ≠ "twoway" →
          icc (.twoD m) model ty u r0 cl fcdf fppf = .error .unboundLocalError)
      ∧ (∀ m ty u r0 cl fcdf fppf, (u = "single" ∨ u = "average") →
          ty ≠ "consistency" → ty ≠ "agreement" →
          icc (.twoD m) "twoway" ty u r0 cl fcdf fppf = .error .unboundLocalError)
      ∧ (∀ m ty r0 cl fcdf fppf,
          (icc (.twoD m) "oneway" ty "single" r0 cl fcdf fppf).isOk = true) := by
  refine ⟨fun m model ty u r0 cl fcdf fppf h1 h2 => ?_,
    fun m model ty u r0 cl fcdf fppf hu h1 h2 => ?_,
    fun m ty u r0 cl fcdf fppf hu h1 h2 => ?_,
    fun m ty r0 cl fcdf fppf => ?_⟩
  · simp [icc, if_neg h1, if_neg h2]
  · rcases hu with rfl | rfl <;> simp [icc, if_neg h1, if_neg h2]
  · have hmo : ¬(("twoway" : String) = "oneway") := by decide
    rcases hu with rfl | rfl <;> simp [icc, if_neg hmo, if_neg h1, if_neg h2]
  · simp [icc, Except.isOk, Except.toBool]

/-- Claim C2, witness for the amended statement at concrete inputs. -/
theorem unsupported_config_unboundLocalError_witness :
    icc (.twoD [[1, 2], [3, 5]]) "oneway" "consistency" "baz" 0 (95/100)
        cdfZero ppfOne = .error .unboundLocalError
      ∧ icc (.twoD [[1, 2], [3, 5]]) "foo" "bar" "single" 0 (95/100)
          cdfZero ppfOne = .error .unboundLocalError
      ∧ icc (.twoD [[1, 2], [3, 5]]) "twoway" "foo" "average" 0 (95/100)
          cdfZero ppfOne = .error .unboundLocalError
      ∧ (icc (.twoD [[1, 2], [3, 5]]) "oneway" "agreement" "single" 0 (95/100)
          cdfZero ppfOne).isOk = true :=
  ⟨unsupported_config_unboundLocalError.1 _ _ _ _ _ _ _ _ (by decide) (by decide),
    unsupported_config_unboundLocalError.2.1 _ _ _ _ _ _ _ _ (Or.inl rfl)
      (by decide) (by decide),
    unsupported_config_unboundLocalError.2.2.1 _ _ _ _ _ _ _ (Or.inr rfl)
      (by decide) (by decide),
    unsupported_config_unboundLocalError.2.2.2 _ _ _ _ _ _⟩

/-- Claim C3: in both twoway-agreement branches the Satterthwaite `v` is
computed with Python `^`, which is bitwise XOR and raises `TypeError` on float
operands, so on the 6 x 4 matrix of the spec both agreement variants abort
instead of computing `v` by arithmetic squaring — whatever the external CDF and
quantile functions are. -/
theorem satterthwaite_xor_raises_typeError :
    ∀ fcdf fppf : ℚ → ℚ → ℚ → ℚ,
      icc (.twoD shrout) "twoway" "agreement" "single" 0 (95/100) fcdf fppf
          = .error .typeError
        ∧ icc (.twoD shrout) "twoway" "agreement" "average" 0 (95/100) fcdf fppf
          = .error .typeError :=
  fun _ _ => ⟨rfl, rfl⟩

/-- Claim C4: on the 6 x 4 matrix of the spec, the source `MSr` is the per-rater
vector of column means scaled by `n_raters`, which does not agree with the
between-subjects mean square — the scalar `n_raters` times the variance of the
per-subject row means — that the claim describes. -/
theorem msr_not_between_subjects_mean_square :
    MSr shrout = [92/3, 10, 52/3, 80/3]
      ∧ betweenSubjectsMS shrout = 1349/120
      ∧ MSr shrout ≠ List.replicate 4 (betweenSubjectsMS shrout) := by
  refine ⟨?_, ?_, ?_⟩
  · norm_num [MSr, cols, col, npMean, npSum, nRaters, shrout, List.range_succ]
  · norm_num [betweenSubjectsMS, sampleVar, npMean, npSum, nRaters, shrout]
  · intro h
    rw [show betweenSubjectsMS shrout = 1349/120 from by
          norm_num [betweenSubjectsMS, sampleVar, npMean, npSum, nRaters, shrout],
        show MSr shrout = [92/3, 10, 52/3, 80/3] from by
          norm_num [MSr, cols, col, npMean, npSum, nRaters, shrout, List.range_succ]] at h
    simp [List.replicate] at h
    norm_num at h

/-- Claim C5: on the perfectly-linear two-column Koo and Li input, none of the
six supported variants returns a coefficient within 0.01 of 1.0: the four
non-agreement variants return coefficient vectors of 7/23, 1/2, 7/15 and 2/3
respectively, and both agreement variants raise `TypeError`. -/
theorem perfect_agreement_coeff_not_one :
    (icc (.twoD koo) "oneway" "agreement" "single" 0 (95/100)
        cdfZero ppfOne).map ICCResult.coeff = .ok [7/23, 7/23]
      ∧ (icc (.twoD koo) "twoway" "consistency" "single" 0 (95/100)
          cdfZero ppfOne).map ICCResult.coeff = .ok [1/2, 1/2]
      ∧ icc (.twoD koo) "twoway" "agreement" "single" 0 (95/100)
          cdfZero ppfOne = .error .typeError
      ∧ (icc (.twoD koo) "oneway" "agreement" "average" 0 (95/100)
          cdfZero ppfOne).map ICCResult.coeff = .ok [7/15, 7/15]
      ∧ (icc (.twoD koo) "twoway" "consistency" "average" 0 (95/100)
          cdfZero ppfOne).map ICCResult.coeff = .ok [2/3, 2/3]
      ∧ icc (.twoD koo) "twoway" "agreement" "average" 0 (95/100)
          cdfZero ppfOne = .error .typeError
      ∧ (7 : ℚ)/23 < 99/100 ∧ (1 : ℚ)/2 < 99/100
      ∧ (7 : ℚ)/15 < 99/100 ∧ (2 : ℚ)/3 < 99/100 := by
  refine ⟨?_, ?_, rfl, ?_, ?_, rfl, by norm_num, by norm_num, by norm_num, by norm_num⟩
  · rw [show icc (.twoD koo) "oneway" "agreement" "single" 0 (95/100) cdfZero ppfOne
        = Except.ok (onewaySingle koo 0 (95/100) cdfZero ppfOne) from rfl]
    norm_num [Except.map, onewaySingle, MSr, MSw, cols, col, npMean, npSum, npVar,
      nRaters, nSubjects, koo, List.range_succ]
  · rw [show icc (.twoD koo) "twoway" "consistency" "single" 0 (95/100) cdfZero ppfOne
        = Except.ok (twowayConsistencySingle koo 0 (95/100) cdfZero ppfOne) from rfl]
    norm_num [Except.map, twowayConsistencySingle, MSr, MSe, MSc, SStotal, cols, col,
      npMean, npSum, npVar, nRaters, nSubjects, koo, List.range_succ]
  · rw [show icc (.twoD koo) "oneway" "agreement" "average" 0 (95/100) cdfZero ppfOne
        = Except.ok (onewayAverage koo 0 (95/100) cdfZero ppfOne) from rfl]
    norm_num [Except.map, onewayAverage, MSr, MSw, cols, col, npMean, npSum, npVar,
      nRaters, nSubjects, koo, List.range_succ]
  · rw [show icc (.twoD koo) "twoway" "consistency" "average" 0 (95/100) cdfZero ppfOne
        = Except.ok (twowayConsistencyAverage koo 0 (95/100) cdfZero ppfOne) from rfl]
    norm_num [Except.map, twowayConsistencyAverage, MSr, MSe, MSc, SStotal, cols, col,
      npMean, npSum, npVar, nRaters, nSubjects, koo, List.range_succ]

/-- Claim C6: on the Shrout and Fleiss 6 x 4 matrix with
(twoway, consistency, single) and default `r0`, `confidence_level`, the code
returns `df1 = 5` and `df2 = 15` as claimed, but the coefficient is the
per-rater vector [284297/206949, 46217/206949, 130697/206949, 238217/206949]
(about [1.374, 0.223, 0.632, 1.151]), no component of which is within 0.001 of
the claimed scalar 0.7148. -/
theorem shrout_twoway_consistency_single_diverges :
    (∀ fcdf fppf : ℚ → ℚ → ℚ → ℚ,
        (icc (.twoD shrout) "twoway" "consistency" "single" 0 (95/100)
            fcdf fppf).map (fun r => (r.coeff, r.df1, r.df2))
          = .ok ([284297/206949, 46217/206949, 130697/206949, 238217/206949], 5, 15))
      ∧ (7158 : ℚ)/10000 < 284297/206949 ∧ (46217 : ℚ)/206949 < 7138/10000
      ∧ (130697 : ℚ)/206949 < 7138/10000 ∧ (7158 : ℚ)/10000 < 238217/206949 := by
  refine ⟨fun fcdf fppf => ?_, by norm_num, by norm_num, by norm_num, by norm_num⟩
  rw [show icc (.twoD shrout) "twoway" "consistency" "single" 0 (95/100) fcdf fppf
      = Except.ok (twowayConsistencySingle shrout 0 (95/100) fcdf fppf) from rfl]
  norm_num [Except.map, twowayConsistencySingle, MSr, MSe, MSc, SStotal, cols, col,
    npMean, npSum, npVar, nRaters, nSubjects, shrout, List.range_succ]

/-- Claim C7, counterexample: for the supported configuration
(twoway, agreement, average) on the valid 6 x 4 spec matrix no pvalue is
returned at all — the call aborts with `TypeError` before `pvalue` is
computed. -/
theorem agreement_average_returns_no_pvalue :
    icc (.twoD shrout) "twoway" "agreement" "average" 0 (95/100) cdfZero ppfOne
      = .error .typeError := rfl

/-- Claim C7, amended: whenever `icc` returns a result (the four non-agreement
supported branches; the twoway-agreement branches raise `TypeError`), the
returned pvalue is componentwise `1 - fcdf Fvalue_j df1 df2` with that branch
Fvalue and degrees of freedom, and each component lies in [0, 1] provided the
external CDF maps into [0, 1]. -/
theorem pvalue_is_upper_tail_of_cdf (fcdf fppf : ℚ → ℚ → ℚ → ℚ)
    (hcdf : ∀ x a b, 0 ≤ fcdf x a b ∧ fcdf x a b ≤ 1)
    (ratings : NDArray) (model ty u : String) (r0 cl : ℚ) (r : ICCResult)
    (h : icc ratings model ty u r0 cl fcdf fppf = .ok r) :
    r.pvalue = r.Fvalue.map (fun x => 1 - fcdf x r.df1 r.df2)
      ∧ ∀ p ∈ r.pvalue, 0 ≤ p ∧ p ≤ 1 := by
  cases ratings with
  | oneD xs =>
    simp only [icc] at h
    exact Except.noConfusion h
  | twoD m =>
    simp only [icc] at h
    split_ifs at h
    all_goals
      first
      | exact Except.noConfusion h
      | exact Except.noConfusion (h : Except.error PyError.typeError = Except.ok r)
      | (rw [Except.ok.injEq] at h; subst h
         exact ⟨rfl, pvalue_mem_bounds fcdf hcdf _ _ _⟩)

/-- Claim C7, witness for the amended statement: a concrete call on
[[1, 2], [3, 5]] with the [0, 1]-valued stand-in CDF `cdfHalf`. -/
theorem pvalue_is_upper_tail_of_cdf_witness :
    C7res.pvalue = C7res.Fvalue.map (fun x => 1 - cdfHalf x C7res.df1 C7res.df2)
      ∧ ∀ p ∈ C7res.pvalue, 0 ≤ p ∧ p ≤ 1 :=
  pvalue_is_upper_tail_of_cdf cdfHalf ppfOne (fun x a b => by norm_num [cdfHalf])
    (.twoD [[1, 2], [3, 5]]) "oneway" "agreement" "single" 0 (95/100) C7res
    (by
      rw [show icc (.twoD [[1, 2], [3, 5]]) "oneway" "agreement" "single" 0 (95/100)
            cdfHalf ppfOne
          = Except.ok (onewaySingle [[1, 2], [3, 5]] 0 (95/100) cdfHalf ppfOne) from rfl]
      norm_num [onewaySingle, C7res, MSr, MSw, cols, col, npMean, npSum, npVar,
        nRaters, nSubjects, List.range_succ, cdfHalf, ppfOne])

/-- In the oneway single branch the confidence bounds bracket the coefficient
componentwise, given positive mean squares and quantiles at least 1. -/
lemma onewaySingle_brackets (m : List (List ℚ)) (r0 cl : ℚ)
    (fcdf fppf : ℚ → ℚ → ℚ → ℚ) (hppf : ∀ p a b, 1 ≤ fppf p a b)
    (hK : 2 ≤ nRaters m) (hMSr : ∀ x ∈ MSr m, 0 < x) (hMSw : 0 < MSw m) :
    List.Forall₂ (· ≤ ·) (onewaySingle m r0 cl fcdf fppf).lbound
        (onewaySingle m r0 cl fcdf fppf).coeff
      ∧ List.Forall₂ (· ≤ ·) (onewaySingle m r0 cl fcdf fppf).coeff
        (onewaySingle m r0 cl fcdf fppf).ubound := by
  have hK2 : (2 : ℚ) ≤ (nRaters m : ℚ) := by exact_mod_cast hK
  constructor
  · simp only [onewaySingle, List.map_map]
    exact forall₂_map_map fun t ht =>
      single_lb (hMSr t ht) hMSw (hppf _ _ _) (by linarith)
  · simp only [onewaySingle, List.map_map]
    exact forall₂_map_map fun t ht =>
      single_ub (hMSr t ht) hMSw (hppf _ _ _) (by linarith)

/-- In the twoway consistency single branch the confidence bounds bracket the
coefficient componentwise, given positive mean squares and quantiles at
least 1. -/
lemma twowayConsistencySingle_brackets (m : List (List ℚ)) (r0 cl : ℚ)
    (fcdf fppf : ℚ → ℚ → ℚ → ℚ) (hppf : ∀ p a b, 1 ≤ fppf p a b)
    (hK : 2 ≤ nRaters m) (hMSr : ∀ x ∈ MSr m, 0 < x)
    (hMSe : ∀ x ∈ MSe m, 0 < x) :
    List.Forall₂ (· ≤ ·) (twowayConsistencySingle m r0 cl fcdf fppf).lbound
        (twowayConsistencySingle m r0 cl fcdf fppf).coeff
      ∧ List.Forall₂ (· ≤ ·) (twowayConsistencySingle m r0 cl fcdf fppf).coeff
        (twowayConsistencySingle m r0 cl fcdf fppf).ubound := by
  have hK2 : (2 : ℚ) ≤ (nRaters m : ℚ) := by exact_mod_cast hK
  constructor
  · simp only [twowayConsistencySingle, List.map_zipWith]
    exact forall₂_zipWith_zipWith _ _ fun t ht e he =>
      single_lb (hMSr t ht) (hMSe e he) (hppf _ _ _) (by linarith)
  · simp only [twowayConsistencySingle, List.map_zipWith]
    exact forall₂_zipWith_zipWith _ _ fun t ht e he =>
      single_ub (hMSr t ht) (hMSe e he) (hppf _ _ _) (by linarith)

/-- In the oneway average branch the confidence bounds bracket the coefficient
componentwise, given positive mean squares and quantiles at least 1. -/
lemma onewayAverage_brackets (m : List (List ℚ)) (r0 cl : ℚ)
    (fcdf fppf : ℚ → ℚ → ℚ → ℚ) (hppf : ∀ p a b, 1 ≤ fppf p a b)
    (hMSr : ∀ x ∈ MSr m, 0 < x) (hMSw : 0 < MSw m) :
    List.Forall₂ (· ≤ ·) (onewayAverage m r0 cl fcdf fppf).lbound
        (onewayAverage m r0 cl fcdf fppf).coeff
      ∧ List.Forall₂ (· ≤ ·) (onewayAverage m r0 cl fcdf fppf).coeff
        (onewayAverage m r0 cl fcdf fppf).ubound := by
  constructor
  · simp only [onewayAverage, List.map_map]
    exact forall₂_map_map fun t ht => average_lb (hMSr t ht) hMSw (hppf _ _ _)
  · simp only [onewayAverage, List.map_map]
    exact forall₂_map_map fun t ht => average_ub (hMSr t ht) hMSw (hppf _ _ _)

/-- In the twoway consistency average branch the confidence bounds bracket the
coefficient componentwise, given positive mean squares and quantiles at
least 1. -/
lemma twowayConsistencyAverage_brackets (m : List (List ℚ)) (r0 cl : ℚ)
    (fcdf fppf : ℚ → ℚ → ℚ → ℚ) (hppf : ∀ p a b, 1 ≤ fppf p a b)
    (hMSr : ∀ x ∈ MSr m, 0 < x) (hMSe : ∀ x ∈ MSe m, 0 < x) :
    List.Forall₂ (· ≤ ·) (twowayConsistencyAverage m r0 cl fcdf fppf).lbound
        (twowayConsistencyAverage m r0 cl fcdf fppf).coeff
      ∧ List.Forall₂ (· ≤ ·) (twowayConsistencyAverage m r0 cl fcdf fppf).coeff
        (twowayConsistencyAverage m r0 cl fcdf fppf).ubound := by
  constructor
  · simp only [twowayConsistencyAverage, List.map_zipWith]
    exact forall₂_zipWith_zipWith _ _ fun t ht e he =>
      average_lb (hMSr t ht) (hMSe e he) (hppf _ _ _)
  · simp only [twowayConsistencyAverage, List.map_zipWith]
    exact forall₂_zipWith_zipWith _ _ fun t ht e he =>
      average_ub (hMSr t ht) (hMSe e he) (hppf _ _ _)

/-- Claim C8, counterexample: on the well-posed perfect-agreement input and the
supported variant (twoway, agreement, single), no bounds are returned at all —
the call aborts with `TypeError` before `lbound` and `ubound` are computed. -/
theorem agreement_single_returns_no_bounds :
    icc (.twoD koo) "twoway" "agreement" "single" 0 (95/100) cdfZero ppfOne
      = .error .typeError := rfl

/-- Claim C8, amended: whenever `icc` returns a result (the four non-agreement
supported branches; the twoway-agreement branches raise `TypeError`), if every
component of `MSr` and of `MSe` and the scalar `MSw` are positive, there are at
least two raters, and the external quantile function returns values at least 1,
then the confidence bounds bracket the coefficient componentwise:
`lbound ≤ coeff ≤ ubound`. -/
theorem bounds_bracket_coeff (fcdf fppf : ℚ → ℚ → ℚ → ℚ)
    (hppf : ∀ p a b, 1 ≤ fppf p a b) (m : List (List ℚ))
    (model ty u : String) (r0 cl : ℚ) (r : ICCResult) (hK : 2 ≤ nRaters m)
    (hMSr : ∀ x ∈ MSr m, 0 < x) (hMSw : 0 < MSw m) (hMSe : ∀ x ∈ MSe m, 0 < x)
    (h : icc (.twoD m) model ty u r0 cl fcdf fppf = .ok r) :
    List.Forall₂ (· ≤ ·) r.lbound r.coeff
      ∧ List.Forall₂ (· ≤ ·) r.coeff r.ubound := by
  simp only [icc] at h
  split_ifs at h
  all_goals
    first
    | exact Except.noConfusion h
    | exact Except.noConfusion (h : Except.error PyError.typeError = Except.ok r)
    | (rw [Except.ok.injEq] at h; subst h
       exact onewaySingle_brackets m r0 cl fcdf fppf hppf hK hMSr hMSw)
    | (rw [Except.ok.injEq] at h; subst h
       exact twowayConsistencySingle_brackets m r0 cl fcdf fppf hppf hK hMSr hMSe)
    | (rw [Except.ok.injEq] at h; subst h
       exact onewayAverage_brackets m r0 cl fcdf fppf hppf hMSr hMSw)
    | (rw [Except.ok.injEq] at h; subst h
       exact twowayConsistencyAverage_brackets m r0 cl fcdf fppf hppf hMSr hMSe)

/-- Claim C8, witness for the amended statement at the concrete matrix `C8mat`,
whose mean squares are all positive, with the quantile stand-in `ppfOne`. -/
theorem bounds_bracket_coeff_witness :
    List.Forall₂ (· ≤ ·) C8res.lbound C8res.coeff
      ∧ List.Forall₂ (· ≤ ·) C8res.coeff C8res.ubound := by
  refine bounds_bracket_coeff cdfZero ppfOne (fun p a b => le_refl 1) C8mat
    "oneway" "agreement" "single" 0 (95/100) C8res
    (by norm_num [nRaters, C8mat]) ?_ ?_ ?_ ?_
  · intro x hx
    rw [show MSr C8mat = [1, 1] from by
      norm_num [MSr, cols, col, npMean, npSum, nRaters, C8mat, List.range_succ]] at hx
    rcases List.mem_cons.1 hx with rfl | hx2
    · norm_num
    · rcases List.mem_singleton.1 hx2 with rfl
      norm_num
  · rw [show MSw C8mat = 81/4 from by
      norm_num [MSw, cols, col, npMean, npSum, npVar, nRaters, nSubjects, C8mat,
        List.range_succ]]
    norm_num
  · intro x hx
    rw [show MSe C8mat = [239/4, 239/4] from by
      norm_num [MSe, MSr, MSc, SStotal, cols, col, npMean, npSum, npVar, nRaters,
        nSubjects, C8mat, List.range_succ]] at hx
    rcases List.mem_cons.1 hx with rfl | hx2
    · norm_num
    · rcases List.mem_singleton.1 hx2 with rfl
      norm_num
  · rw [show icc (.twoD C8mat) "oneway" "agreement" "single" 0 (95/100) cdfZero ppfOne
        = Except.ok (onewaySingle C8mat 0 (95/100) cdfZero ppfOne) from rfl]
    norm_num [onewaySingle, C8res, MSr, MSw, cols, col, npMean, npSum, npVar,
      nRaters, nSubjects, C8mat, List.range_succ, cdfZero, ppfOne]

/-- Claim C9, counterexample: on [[11, -9], [-9, 11]] with the supported
configuration (oneway, agreement, average), all mean squares are non-negative
(`MSr = [2, 2]`, `MSw = 100`, `MSc = 0`, `MSe = [298, 298]`) and the
coefficient denominators (the components of `MSr`) are non-zero, yet the
returned coefficient is [-49, -49], far outside [-1, 1]. -/
theorem average_coeff_escapes_unit_interval :
    (icc (.twoD [[11, -9], [-9, 11]]) "oneway" "agreement" "average" 0 (95/100)
        cdfZero ppfOne).map ICCResult.coeff = .ok [-49, -49]
      ∧ MSr [[11, -9], [-9, 11]] = [2, 2]
      ∧ MSw [[11, -9], [-9, 11]] = 100
      ∧ MSc [[11, -9], [-9, 11]] = 0
      ∧ MSe [[11, -9], [-9, 11]] = [298, 298]
      ∧ (-49 : ℚ) < -1 := by
  refine ⟨?_, ?_, ?_, ?_, ?_, by norm_num⟩
  · rw [show icc (.twoD [[11, -9], [-9, 11]]) "oneway" "agreement" "average" 0 (95/100)
        cdfZero ppfOne
        = Except.ok (onewayAverage [[11, -9], [-9, 11]] 0 (95/100) cdfZero ppfOne)
        from rfl]
    norm_num [Except.map, onewayAverage, MSr, MSw, cols, col, npMean, npSum, npVar,
      nRaters, nSubjects, List.range_succ]
  · norm_num [MSr, cols, col, npMean, npSum, nRaters, List.range_succ]
  · norm_num [MSw, cols, col, npMean, npSum, npVar, nRaters, nSubjects, List.range_succ]
  · norm_num [MSc, npMean, npSum, npVar, nSubjects]
  · norm_num [MSe, MSr, MSc, SStotal, cols, col, npMean, npSum, npVar, nRaters,
      nSubjects, List.range_succ]

/-- Claim C9, amended: in the single-unit branches that return a result, with
at least two raters, non-negative mean squares and non-zero coefficient
denominators, every component of the returned coefficient lies in [-1, 1].
(The average-unit coefficients are bounded above by 1 but not below, and the
agreement branches return nothing.) -/
theorem single_unit_coeff_in_unit_interval (fcdf fppf : ℚ → ℚ → ℚ → ℚ)
    (m : List (List ℚ)) (model ty : String) (r0 cl : ℚ) (r : ICCResult)
    (hK : 2 ≤ nRaters m) (hMSr : ∀ x ∈ MSr m, 0 ≤ x) (hMSw : 0 ≤ MSw m)
    (hMSe : ∀ x ∈ MSe m, 0 ≤ x)
    (hd1 : ∀ x ∈ MSr m, x + ((nRaters m : ℚ) - 1) * MSw m ≠ 0)
    (hd2 : ∀ x ∈ MSr m, ∀ e ∈ MSe m, x + ((nRaters m : ℚ) - 1) * e ≠ 0)
    (h : icc (.twoD m) model ty "single" r0 cl fcdf fppf = .ok r) :
    ∀ c ∈ r.coeff, -1 ≤ c ∧ c ≤ 1 := by
  have hK2 : (2 : ℚ) ≤ (nRaters m : ℚ) := by exact_mod_cast hK
  rw [show icc (.twoD m) model ty "single" r0 cl fcdf fppf
      = (if model = "oneway" then
          Except.ok (onewaySingle m r0 cl fcdf fppf)
        else if model = "twoway" then
          if ty = "consistency" then
            Except.ok (twowayConsistencySingle m r0 cl fcdf fppf)
          else if ty = "agreement" then
            twowayAgreementSingle m r0 cl fcdf fppf
          else Except.error PyError.unboundLocalError
        else Except.error PyError.unboundLocalError) from rfl] at h
  split_ifs at h
  · rw [Except.ok.injEq] at h
    subst h
    simp only [onewaySingle]
    intro c hc
    rw [List.mem_map] at hc
    obtain ⟨t, ht, rfl⟩ := hc
    exact ratio_in_unit_interval (hMSr t ht) hMSw (by linarith) (hd1 t ht)
  · rw [Except.ok.injEq] at h
    subst h
    simp only [twowayConsistencySingle]
    intro c hc
    obtain ⟨t, ht, e, he, rfl⟩ := exists_of_mem_zipWith hc
    exact ratio_in_unit_interval (hMSr t ht) (hMSe e he) (by linarith)
      (hd2 t ht e he)
  · exact Except.noConfusion (h : Except.error PyError.typeError = Except.ok r)

/-- Claim C9, witness for the amended statement at the concrete matrix
[[5, -4], [-4, 5]], whose mean squares are non-negative and whose coefficient
denominators are non-zero. -/
theorem single_unit_coeff_in_unit_interval_witness :
    -1 ≤ (-77 : ℚ)/85 ∧ (-77 : ℚ)/85 ≤ 1 := by
  have hMSr : MSr [[5, -4], [-4, 5]] = [1, 1] := by
    norm_num [MSr, cols, col, npMean, npSum, nRaters, List.range_succ]
  have hMSw : MSw [[5, -4], [-4, 5]] = 81/4 := by
    norm_num [MSw, cols, col, npMean, npSum, npVar, nRaters, nSubjects, List.range_succ]
  have hMSe : MSe [[5, -4], [-4, 5]] = [239/4, 239/4] := by
    norm_num [MSe, MSr, MSc, SStotal, cols, col, npMean, npSum, npVar, nRaters,
      nSubjects, List.range_succ]
  have hmem : ∀ x ∈ ([1, 1] : List ℚ), x = 1 := by
    intro x hx
    rcases List.mem_cons.1 hx with rfl | hx2
    · rfl
    · exact List.mem_singleton.1 hx2
  have hmem2 : ∀ x ∈ ([239/4, 239/4] : List ℚ), x = 239/4 := by
    intro x hx
    rcases List.mem_cons.1 hx with rfl | hx2
    · rfl
    · exact List.mem_singleton.1 hx2
  have happ := single_unit_coeff_in_unit_interval cdfZero ppfOne [[5, -4], [-4, 5]]
    "oneway" "agreement" 0 (95/100)
    ⟨[-77/85, -77/85], [4/81, 4/81], 1, 2, [1, 1], [-77/85, -77/85], [-77/85, -77/85]⟩
    (by norm_num [nRaters])
    (fun x hx => by rw [hMSr] at hx; rw [hmem x hx]; norm_num)
    (by rw [hMSw]; norm_num)
    (fun x hx => by rw [hMSe] at hx; rw [hmem2 x hx]; norm_num)
    (fun x hx => by
      rw [hMSr] at hx
      rw [hmem x hx, hMSw, show ((nRaters [[5, -4], [-4, 5]] : ℚ) - 1) = 1 from by
        norm_num [nRaters]]
      norm_num)
    (fun x hx e he => by
      rw [hMSr] at hx
      rw [hMSe] at he
      rw [hmem x hx, hmem2 e he, show ((nRaters [[5, -4], [-4, 5]] : ℚ) - 1) = 1 from by
        norm_num [nRaters]]
      norm_num)
    (by
      rw [show icc (.twoD [[5, -4], [-4, 5]]) "oneway" "agreement" "single" 0 (95/100)
            cdfZero ppfOne
          = Except.ok (onewaySingle [[5, -4], [-4, 5]] 0 (95/100) cdfZero ppfOne)
          from rfl]
      norm_num [onewaySingle, MSr, MSw, cols, col, npMean, npSum, npVar, nRaters,
        nSubjects, List.range_succ, cdfZero, ppfOne])
  exact happ (-77/85) (List.mem_cons_self _ _)

/-- Claim C10: under `model = "oneway"` the `type` argument never influences
the behaviour of `icc`: any two calls differing only in the `type` string have
the same outcome, for every ratings input, unit, `r0`, confidence level and
external distribution functions. -/
theorem oneway_type_irrelevant :
    ∀ (ratings : NDArray) (t1 t2 u : String) (r0 cl : ℚ)
      (fcdf fppf : ℚ → ℚ → ℚ → ℚ),
      icc ratings "oneway" t1 u r0 cl fcdf fppf
        = icc ratings "oneway" t2 u r0 cl fcdf fppf := by
  intro ratings t1 t2 u r0 cl fcdf fppf
  cases ratings <;> rfl

end ICC
